import Mathlib

/-!
# Verification of the homebridge-tuya-web authentication / protocol / normalization core

Shallow embedding of the plugin's protocol code (Tuya mobile-API encryption,
OpenAPI request signing, token refresh, device-code resolution, state
translation and the device-state cache) together with proofs of the spec's
claims about it.

Bytes are modelled as natural numbers below 256, byte strings as `List Nat`,
and JavaScript strings as Lean `String`s (the protocol strings are ASCII, so
UTF-8 encoding is character-by-character).
-/

namespace TuyaWeb

/-! ## Bytes, hex and small JavaScript helpers -/

/-- UTF-8 bytes of a string.  Faithful for ASCII content, which is all the
protocol strings carry. -/
def utf8Bytes (s : String) : List Nat :=
  s.data.map Char.toNat

/-- The lowercase hexadecimal digits, as Node's `digest('hex')` emits them. -/
def hexChars : List Char :=
  "0123456789abcdef".data

/-- Two lowercase hex digits of one byte. -/
def byteToHex (b : Nat) : List Char :=
  [hexChars.getD (b / 16 % 16) '0', hexChars.getD (b % 16) '0']

/-- Lowercase hex rendering of a byte string (Node `digest('hex')`). -/
def bytesToHex (bs : List Nat) : String :=
  ⟨(bs.map byteToHex).flatten⟩

/-- JavaScript `String.prototype.toUpperCase` restricted to ASCII. -/
def jsToUpperChar (c : Char) : Char :=
  if 'a' ≤ c ∧ c ≤ 'z' then Char.ofNat (c.toNat - 32) else c

/-- `toUpperCase` on an (ASCII) string. -/
def jsToUpper (s : String) : String :=
  ⟨s.data.map jsToUpperChar⟩

/-- JavaScript `Math.round`: round half toward positive infinity. -/
def jsRound (q : ℚ) : ℤ :=
  ⌊q + 1/2⌋

/-! ## 32-bit word helpers -/

/-- Truncating 32-bit addition. -/
def add32 (a b : Nat) : Nat :=
  (a + b) % 2 ^ 32

/-- 32-bit right rotation. -/
def rotr32 (x n : Nat) : Nat :=
  ((x >>> n) ||| (x <<< (32 - n))) % 2 ^ 32

/-- 32-bit left rotation. -/
def rotl32 (x n : Nat) : Nat :=
  ((x <<< n) ||| (x >>> (32 - n))) % 2 ^ 32

/-- Bitwise complement within 32 bits. -/
def not32 (x : Nat) : Nat :=
  x ^^^ 0xffffffff

/-- Big-endian bytes of a 32-bit word. -/
def wordBytesBE (w : Nat) : List Nat :=
  [w >>> 24 % 256, w >>> 16 % 256, w >>> 8 % 256, w % 256]

/-- Little-endian bytes of a 32-bit word. -/
def wordBytesLE (w : Nat) : List Nat :=
  [w % 256, w >>> 8 % 256, w >>> 16 % 256, w >>> 24 % 256]

/-- Big-endian bytes of a 64-bit length field. -/
def be64 (n : Nat) : List Nat :=
  (List.range 8).map fun i => n >>> (8 * (7 - i)) % 256

/-- Little-endian bytes of a 64-bit length field. -/
def le64 (n : Nat) : List Nat :=
  (List.range 8).map fun i => n >>> (8 * i) % 256

/-- Split a byte string into 64-byte blocks (fuelled, fuel = length). -/
def chunks64Aux : Nat → List Nat → List (List Nat)
  | 0, _ => []
  | _, [] => []
  | fuel + 1, l => l.take 64 :: chunks64Aux fuel (l.drop 64)

/-- The 64-byte blocks of a padded message. -/
def chunks64 (l : List Nat) : List (List Nat) :=
  chunks64Aux l.length l

/-- Merkle–Damgård padding length: zero bytes after the 0x80 marker. -/
def padZeros (len : Nat) : Nat :=
  (119 - len % 64) % 64

/-! ## SHA-256 (Node `crypto.createHash('sha256')`) -/

/-- The SHA-256 round constants (FIPS 180-4, written in decimal). -/
def sha256K : List Nat :=
  [1116352408, 1899447441, 3049323471, 3921009573, 961987163, 1508970993,
   2453635748, 2870763221, 3624381080, 310598401, 607225278, 1426881987,
   1925078388, 2162078206, 2614888103, 3248222580, 3835390401, 4022224774,
   264347078, 604807628, 770255983, 1249150122, 1555081692, 1996064986,
   2554220882, 2821834349, 2952996808, 3210313671, 3336571891, 3584528711,
   113926993, 338241895, 666307205, 773529912, 1294757372, 1396182291,
   1695183700, 1986661051, 2177026350, 2456956037, 2730485921, 2820302411,
   3259730800, 3345764771, 3516065817, 3600352804, 4094571909, 275423344,
   430227734, 506948616, 659060556, 883997877, 958139571, 1322822218,
   1537002063, 1747873779, 1955562222, 2024104815, 2227730452, 2361852424,
   2428436474, 2756734187, 3204031479, 3329325298]

/-- The SHA-256 initial hash value (FIPS 180-4, written in decimal). -/
def sha256Init : List Nat :=
  [1779033703, 3144134277, 1013904242, 2773480762,
   1359893119, 2600822924, 528734635, 1541459225]

/-- The sixteen big-endian message words of one 64-byte block. -/
def wordsOfBlockBE (block : List Nat) : List Nat :=
  (List.range 16).map fun i =>
    block.getD (4 * i) 0 <<< 24 ||| block.getD (4 * i + 1) 0 <<< 16 |||
    block.getD (4 * i + 2) 0 <<< 8 ||| block.getD (4 * i + 3) 0

/-- The first `n` words of the SHA-256 message schedule. -/
def sha256Schedule (w16 : List Nat) : Nat → List Nat
  | 0 => []
  | n + 1 =>
    let ws := sha256Schedule w16 n
    let w :=
      if n < 16 then w16.getD n 0
      else
        let x15 := ws.getD (n - 15) 0
        let x2 := ws.getD (n - 2) 0
        let s0 := rotr32 x15 7 ^^^ rotr32 x15 18 ^^^ (x15 >>> 3)
        let s1 := rotr32 x2 17 ^^^ rotr32 x2 19 ^^^ (x2 >>> 10)
        (ws.getD (n - 16) 0 + s0 + ws.getD (n - 7) 0 + s1) % 2 ^ 32
    ws ++ [w]

/-- One SHA-256 round on the eight-word working state. -/
def sha256Round (w : List Nat) (st : List Nat) (i : Nat) : List Nat :=
  match st with
  | [a, b, c, d, e, f, g, h] =>
    let s1 := rotr32 e 6 ^^^ rotr32 e 11 ^^^ rotr32 e 25
    let ch := (e &&& f) ^^^ (not32 e &&& g)
    let t1 := (h + s1 + ch + sha256K.getD i 0 + w.getD i 0) % 2 ^ 32
    let s0 := rotr32 a 2 ^^^ rotr32 a 13 ^^^ rotr32 a 22
    let maj := (a &&& b) ^^^ (a &&& c) ^^^ (b &&& c)
    let t2 := (s0 + maj) % 2 ^ 32
    [(t1 + t2) % 2 ^ 32, a, b, c, (d + t1) % 2 ^ 32, e, f, g]
  | st => st

/-- SHA-256 compression of one 64-byte block. -/
def sha256Compress (h : List Nat) (block : List Nat) : List Nat :=
  let w := sha256Schedule (wordsOfBlockBE block) 64
  let f := (List.range 64).foldl (sha256Round w) h
  List.zipWith add32 h f

/-- SHA-256 of a byte string. -/
def sha256 (msg : List Nat) : List Nat :=
  let padded := msg ++ [0x80] ++ List.replicate (padZeros msg.length) 0 ++ be64 (msg.length * 8)
  (((chunks64 padded).foldl sha256Compress sha256Init).map wordBytesBE).flatten

/-- `crypto.createHash('sha256').update(s).digest('hex')`. -/
def sha256Hex (s : String) : String :=
  bytesToHex (sha256 (utf8Bytes s))

/-! ## MD5 (Node `crypto.createHash('md5')`) -/

/-- The 64 MD5 sine-derived constants. -/
def md5K : List Nat :=
  [0xd76aa478, 0xe8c7b756, 0x242070db, 0xc1bdceee, 0xf57c0faf, 0x4787c62a, 0xa8304613, 0xfd469501,
   0x698098d8, 0x8b44f7af, 0xffff5bb1, 0x895cd7be, 0x6b901122, 0xfd987193, 0xa679438e, 0x49b40821,
   0xf61e2562, 0xc040b340, 0x265e5a51, 0xe9b6c7aa, 0xd62f105d, 0x02441453, 0xd8a1e681, 0xe7d3fbc8,
   0x21e1cde6, 0xc33707d6, 0xf4d50d87, 0x455a14ed, 0xa9e3e905, 0xfcefa3f8, 0x676f02d9, 0x8d2a4c8a,
   0xfffa3942, 0x8771f681, 0x6d9d6122, 0xfde5380c, 0xa4beea44, 0x4bdecfa9, 0xf6bb4b60, 0xbebfbc70,
   0x289b7ec6, 0xeaa127fa, 0xd4ef3085, 0x04881d05, 0xd9d4d039, 0xe6db99e5, 0x1fa27cf8, 0xc4ac5665,
   0xf4292244, 0x432aff97, 0xab9423a7, 0xfc93a039, 0x655b59c3, 0x8f0ccc92, 0xffeff47d, 0x85845dd1,
   0x6fa87e4f, 0xfe2ce6e0, 0xa3014314, 0x4e0811a1, 0xf7537e82, 0xbd3af235, 0x2ad7d2bb, 0xeb86d391]

/-- The per-round MD5 left-rotation amounts. -/
def md5S : List Nat :=
  [7, 12, 17, 22, 7, 12, 17, 22, 7, 12, 17, 22, 7, 12, 17, 22,
   5, 9, 14, 20, 5, 9, 14, 20, 5, 9, 14, 20, 5, 9, 14, 20,
   4, 11, 16, 23, 4, 11, 16, 23, 4, 11, 16, 23, 4, 11, 16, 23,
   6, 10, 15, 21, 6, 10, 15, 21, 6, 10, 15, 21, 6, 10, 15, 21]

/-- The MD5 nonlinear function of round `i / 16`. -/
def md5F (i b c d : Nat) : Nat :=
  if i < 16 then (b &&& c) ||| (not32 b &&& d)
  else if i < 32 then (d &&& b) ||| (not32 d &&& c)
  else if i < 48 then b ^^^ c ^^^ d
  else c ^^^ (b ||| not32 d)

/-- The MD5 message-word index of step `i`. -/
def md5G (i : Nat) : Nat :=
  if i < 16 then i
  else if i < 32 then (5 * i + 1) % 16
  else if i < 48 then (3 * i + 5) % 16
  else (7 * i) % 16

/-- The sixteen little-endian message words of one 64-byte block. -/
def wordsOfBlockLE (block : List Nat) : List Nat :=
  (List.range 16).map fun i =>
    block.getD (4 * i) 0 ||| block.getD (4 * i + 1) 0 <<< 8 |||
    block.getD (4 * i + 2) 0 <<< 16 ||| block.getD (4 * i + 3) 0 <<< 24

/-- One MD5 step on the four-word working state. -/
def md5Step (m : List Nat) (st : List Nat) (i : Nat) : List Nat :=
  match st with
  | [a, b, c, d] =>
    let f := (md5F i b c d + a + md5K.getD i 0 + m.getD (md5G i) 0) % 2 ^ 32
    [d, (b + rotl32 f (md5S.getD i 0)) % 2 ^ 32, b, c]
  | st => st

/-- MD5 compression of one 64-byte block. -/
def md5Compress (h : List Nat) (block : List Nat) : List Nat :=
  let m := wordsOfBlockLE block
  let f := (List.range 64).foldl (md5Step m) h
  List.zipWith add32 h f

/-- The MD5 initial state. -/
def md5Init : List Nat :=
  [0x67452301, 0xefcdab89, 0x98badcfe, 0x10325476]

/-- MD5 of a byte string. -/
def md5 (msg : List Nat) : List Nat :=
  let padded := msg ++ [0x80] ++ List.replicate (padZeros msg.length) 0 ++ le64 (msg.length * 8)
  (((chunks64 padded).foldl md5Compress md5Init).map wordBytesLE).flatten

/-- `crypto.createHash('md5').update(s).digest('hex')`. -/
def md5Hex (s : String) : String :=
  bytesToHex (md5 (utf8Bytes s))

/-! ## HMAC-SHA256 (Node `crypto.createHmac('sha256', key)`) -/

/-- HMAC-SHA256 over byte strings. -/
def hmacSha256 (key msg : List Nat) : List Nat :=
  let k0 := if 64 < key.length then sha256 key else key
  let k := k0 ++ List.replicate (64 - k0.length) 0
  let ipad := k.map fun b => (b ^^^ 0x36) % 256
  let opad := k.map fun b => (b ^^^ 0x5c) % 256
  sha256 (opad ++ sha256 (ipad ++ msg))

/-- `crypto.createHmac('sha256', key).update(msg).digest('hex')` (lowercase). -/
def hmacSha256Hex (key msg : String) : String :=
  bytesToHex (hmacSha256 (utf8Bytes key) (utf8Bytes msg))

/-! ## Base64 (Node `Buffer.toString('base64')` / `Buffer.from(_, 'base64')`) -/

/-- The base64 alphabet. -/
def b64Chars : List Char :=
  "ABCDEFGHIJKLMNOPQRSTUVWXYZabcdefghijklmnopqrstuvwxyz0123456789+/".data

/-- The base64 character of a sextet. -/
def b64c (n : Nat) : Char :=
  b64Chars.getD n 'A'

/-- The sextet of a base64 character. -/
def b64val (c : Char) : Nat :=
  b64Chars.indexOf c

/-- Base64 encoding of a byte string, with `=` padding. -/
def b64encode : List Nat → List Char
  | [] => []
  | [b1] => [b64c (b1 / 4), b64c (b1 % 4 * 16), '=', '=']
  | [b1, b2] => [b64c (b1 / 4), b64c (b1 % 4 * 16 + b2 / 16), b64c (b2 % 16 * 4), '=']
  | b1 :: b2 :: b3 :: rest =>
    b64c (b1 / 4) :: b64c (b1 % 4 * 16 + b2 / 16) :: b64c (b2 % 16 * 4 + b3 / 64) ::
    b64c (b3 % 64) :: b64encode rest

/-- Reassemble bytes from a sextet stream, dropping trailing spare bits as
Node's base64 decoder does. -/
def sextetsToBytes : List Nat → List Nat
  | s1 :: s2 :: s3 :: s4 :: rest =>
    (s1 * 4 + s2 / 16) % 256 :: (s2 % 16 * 16 + s3 / 4) % 256 :: (s3 % 4 * 64 + s4) % 256 ::
    sextetsToBytes rest
  | [s1, s2, s3] => [(s1 * 4 + s2 / 16) % 256, (s2 % 16 * 16 + s3 / 4) % 256]
  | [s1, s2] => [(s1 * 4 + s2 / 16) % 256]
  | _ => []

/-- Base64 decoding of a whole character string as one blob
(`Buffer.from(s, 'base64')`). -/
def b64decode (s : List Char) : List Nat :=
  sextetsToBytes ((s.filter fun c => c != '=').map b64val)

/-! ## AES-128 (the block cipher behind Node `aes-128-gcm`)

The S-box is computed from its definition (multiplicative inverse in
GF(2^8) followed by the affine transform) rather than transcribed as a
table. -/

/-- XOR of two bytes, kept below 256. -/
def byteXor (a b : Nat) : Nat :=
  (a ^^^ b) % 256

/-- Multiplication in GF(2^8) modulo x^8 + x^4 + x^3 + x + 1. -/
def gf8mulAux : Nat → Nat → Nat → Nat → Nat
  | 0, _, _, acc => acc
  | n + 1, a, b, acc =>
    let acc' := if b % 2 = 1 then (acc ^^^ a) % 256 else acc
    let a' := if 128 ≤ a then ((a <<< 1) ^^^ 0x11b) % 256 else (a <<< 1) % 256
    gf8mulAux n a' (b >>> 1) acc'

/-- GF(2^8) product of two bytes. -/
def gf8mul (a b : Nat) : Nat :=
  gf8mulAux 8 (a % 256) (b % 256) 0

/-- GF(2^8) power. -/
def gf8pow (a : Nat) : Nat → Nat
  | 0 => 1
  | n + 1 => gf8mul a (gf8pow a n)

/-- GF(2^8) multiplicative inverse (0 maps to 0), as x^254. -/
def gf8inv (x : Nat) : Nat :=
  gf8pow (x % 256) 254

/-- Left rotation within 8 bits. -/
def rotl8 (x n : Nat) : Nat :=
  ((x <<< n) ||| (x >>> (8 - n))) % 256

/-- The AES S-box. -/
def sBoxFun (x : Nat) : Nat :=
  let b := gf8inv x
  (b ^^^ rotl8 b 1 ^^^ rotl8 b 2 ^^^ rotl8 b 3 ^^^ rotl8 b 4 ^^^ 0x63) % 256

/-- S-box substitution of a four-byte word. -/
def subWord (w : List Nat) : List Nat :=
  w.map sBoxFun

/-- One-byte left rotation of a four-byte word. -/
def rotWord (w : List Nat) : List Nat :=
  w.drop 1 ++ w.take 1

/-- Byte-wise XOR of two words. -/
def xorWord (a b : List Nat) : List Nat :=
  List.zipWith byteXor a b

/-- The AES round constant of round `i`. -/
def rcon (i : Nat) : Nat :=
  gf8pow 2 (i - 1)

/-- The first `n` four-byte words of the AES-128 key schedule. -/
def expandWords (key : List Nat) : Nat → List (List Nat)
  | 0 => []
  | n + 1 =>
    let ws := expandWords key n
    let w :=
      if n < 4 then (List.range 4).map fun j => key.getD (4 * n + j) 0 % 256
      else
        let prev := ws.getD (n - 1) [0, 0, 0, 0]
        let p4 := ws.getD (n - 4) [0, 0, 0, 0]
        if n % 4 = 0 then xorWord p4 (xorWord (subWord (rotWord prev)) [rcon (n / 4), 0, 0, 0])
        else xorWord p4 prev
    ws ++ [w]

/-- The sixteen bytes of round key `r`. -/
def roundKey (key : List Nat) (r : Nat) : List Nat :=
  (List.range 16).map fun j => ((expandWords key 44).getD (4 * r + j / 4) []).getD (j % 4) 0 % 256

/-- SubBytes on the sixteen-byte state. -/
def subBytes (s : List Nat) : List Nat :=
  s.map sBoxFun

/-- The source index of state byte `i` under ShiftRows (column-major state). -/
def shiftRowsIdx (i : Nat) : Nat :=
  i % 4 + 4 * ((i / 4 + i % 4) % 4)

/-- ShiftRows on the sixteen-byte state. -/
def shiftRows (s : List Nat) : List Nat :=
  (List.range 16).map fun i => s.getD (shiftRowsIdx i) 0

/-- MixColumns on a single column. -/
def mixOneColumn (a0 a1 a2 a3 : Nat) : List Nat :=
  [byteXor (byteXor (gf8mul 2 a0) (gf8mul 3 a1)) (byteXor a2 a3),
   byteXor (byteXor a0 (gf8mul 2 a1)) (byteXor (gf8mul 3 a2) a3),
   byteXor (byteXor a0 a1) (byteXor (gf8mul 2 a2) (gf8mul 3 a3)),
   byteXor (byteXor (gf8mul 3 a0) a1) (byteXor a2 (gf8mul 2 a3))]

/-- MixColumns on the sixteen-byte state. -/
def mixColumns (s : List Nat) : List Nat :=
  ((List.range 4).map fun c =>
    mixOneColumn (s.getD (4 * c) 0) (s.getD (4 * c + 1) 0)
      (s.getD (4 * c + 2) 0) (s.getD (4 * c + 3) 0)).flatten

/-- AddRoundKey. -/
def addRoundKey (s k : List Nat) : List Nat :=
  List.zipWith byteXor s k

/-- Normalize an input block to sixteen bytes. -/
def norm16 (b : List Nat) : List Nat :=
  (List.range 16).map fun i => b.getD i 0 % 256

/-- AES-128 encryption of one sixteen-byte block. -/
def aesEncryptBlock (key block : List Nat) : List Nat :=
  let s0 := addRoundKey (norm16 block) (roundKey key 0)
  let s9 := (List.range 9).foldl
    (fun s i => addRoundKey (mixColumns (shiftRows (subBytes s))) (roundKey key (i + 1))) s0
  addRoundKey (shiftRows (subBytes s9)) (roundKey key 10)

/-! ## GCM mode (Node `aes-128-gcm` with a 96-bit IV and no AAD) -/

/-- Big-endian value of a sixteen-byte block. -/
def bytesToNatBE (bs : List Nat) : Nat :=
  bs.foldl (fun acc b => acc * 256 + b % 256) 0

/-- The sixteen big-endian bytes of a 128-bit value. -/
def nat128ToBytesBE (x : Nat) : List Nat :=
  (List.range 16).map fun i => x >>> (8 * (15 - i)) % 256

/-- Multiplication in GF(2^128) with GCM's reduction polynomial. -/
def gf128Mul (x y : Nat) : Nat :=
  let r : Nat := 0xe1 <<< 120
  ((List.range 128).foldl
    (fun zv i =>
      let z := if (x >>> (127 - i)) % 2 = 1 then zv.1 ^^^ zv.2 else zv.1
      let v := if zv.2 % 2 = 1 then (zv.2 >>> 1) ^^^ r else zv.2 >>> 1
      (z, v))
    ((0 : Nat), y % 2 ^ 128)).1

/-- GHASH over a list of sixteen-byte blocks. -/
def ghash (h : Nat) (blocks : List (List Nat)) : Nat :=
  blocks.foldl (fun y blk => gf128Mul (y ^^^ bytesToNatBE blk) h) 0

/-- Split a byte string into sixteen-byte blocks, zero-padding the last. -/
def chunks16Aux : Nat → List Nat → List (List Nat)
  | 0, _ => []
  | _, [] => []
  | fuel + 1, l => (l.take 16 ++ List.replicate (16 - (l.take 16).length) 0) :: chunks16Aux fuel (l.drop 16)

/-- The zero-padded sixteen-byte blocks of a byte string. -/
def chunks16 (l : List Nat) : List (List Nat) :=
  chunks16Aux l.length l

/-- The counter block `nonce ‖ counter` for a 96-bit nonce. -/
def ctrBlock (nonce : List Nat) (c : Nat) : List Nat :=
  nonce ++ wordBytesBE c

/-- The first `n` CTR keystream bytes (encryption counters start at 2). -/
def gcmKeystream (key nonce : List Nat) (n : Nat) : List Nat :=
  (((List.range ((n + 15) / 16)).map fun i => aesEncryptBlock key (ctrBlock nonce (i + 2))).flatten).take n

/-- Byte-wise XOR of two byte strings. -/
def xorBytes (a b : List Nat) : List Nat :=
  List.zipWith byteXor a b

/-- The sixteen-byte GCM authentication tag of a ciphertext (no AAD). -/
def gcmTag (key nonce ct : List Nat) : List Nat :=
  let h := bytesToNatBE (aesEncryptBlock key (List.replicate 16 0))
  let lenBlock := be64 0 ++ be64 (ct.length * 8)
  let s := ghash h (chunks16 ct ++ [lenBlock])
  List.zipWith byteXor (aesEncryptBlock key (ctrBlock nonce 1)) (nat128ToBytesBE s)

/-- AES-GCM encryption: ciphertext followed by the sixteen-byte tag, as
Python's `AESGCM.encrypt` (which Node's cipher + `getAuthTag` replicates)
returns it. -/
def gcmEncrypt (key nonce pt : List Nat) : List Nat :=
  let ct := xorBytes pt (gcmKeystream key nonce pt.length)
  ct ++ gcmTag key nonce ct

/-- AES-GCM decryption of `ciphertext ‖ tag`; `none` models the
authentication failure thrown by `decipher.final()`. -/
def gcmDecrypt (key nonce data : List Nat) : Option (List Nat) :=
  if data.length < 16 then none
  else if gcmTag key nonce (data.take (data.length - 16)) = data.drop (data.length - 16) then
    some (xorBytes (data.take (data.length - 16))
      (gcmKeystream key nonce (data.take (data.length - 16)).length))
  else none

/-! ## Byte-level lemmas -/

theorem byteXor_lt (a b : Nat) : byteXor a b < 256 :=
  Nat.mod_lt _ (by norm_num)

theorem mem_zipWith_byteXor_lt : ∀ (l1 l2 : List Nat), ∀ b ∈ List.zipWith byteXor l1 l2, b < 256 := by
  intro l1
  induction l1 with
  | nil => simp
  | cons x xs ih =>
    intro l2 b hb
    cases l2 with
    | nil => simp at hb
    | cons y ys =>
      rcases List.mem_cons.1 (by simpa using hb) with h | h
      · exact h ▸ byteXor_lt x y
      · exact ih ys b h

theorem length_shiftRows (s : List Nat) : (shiftRows s).length = 16 := by
  simp [shiftRows]

theorem length_roundKey (key : List Nat) (r : Nat) : (roundKey key r).length = 16 := by
  simp [roundKey]

theorem length_aesEncryptBlock (key block : List Nat) :
    (aesEncryptBlock key block).length = 16 := by
  simp [aesEncryptBlock, addRoundKey, length_shiftRows, length_roundKey]

theorem mem_aesEncryptBlock_lt (key block : List Nat) :
    ∀ b ∈ aesEncryptBlock key block, b < 256 := by
  intro b hb
  exact mem_zipWith_byteXor_lt _ _ b hb

theorem length_gcmKeystream (key nonce : List Nat) (n : Nat) :
    (gcmKeystream key nonce n).length = n := by
  have h : (((List.range ((n + 15) / 16)).map fun i =>
      aesEncryptBlock key (ctrBlock nonce (i + 2))).flatten).length = ((n + 15) / 16) * 16 := by
    rw [List.length_flatten, List.map_map]
    have heq : (List.range ((n + 15) / 16)).map
        (List.length ∘ fun i => aesEncryptBlock key (ctrBlock nonce (i + 2)))
        = List.replicate ((n + 15) / 16) 16 := by
      apply List.eq_replicate_iff.2
      refine ⟨by simp, ?_⟩
      intro x hx
      rcases List.mem_map.1 hx with ⟨i, _, hi⟩
      simpa [length_aesEncryptBlock] using hi.symm
    rw [heq, List.sum_replicate, smul_eq_mul]
  simp only [gcmKeystream, List.length_take, h]
  omega

theorem mem_gcmKeystream_lt (key nonce : List Nat) (n : Nat) :
    ∀ b ∈ gcmKeystream key nonce n, b < 256 := by
  intro b hb
  have hb' := List.mem_of_mem_take hb
  rcases List.mem_flatten.1 hb' with ⟨blk, hblk, hbin⟩
  rcases List.mem_map.1 hblk with ⟨i, _, hi⟩
  exact mem_aesEncryptBlock_lt _ _ b (hi ▸ hbin)

theorem length_gcmTag (key nonce ct : List Nat) : (gcmTag key nonce ct).length = 16 := by
  simp [gcmTag, length_aesEncryptBlock, nat128ToBytesBE]

theorem mem_gcmEncrypt_lt (key nonce pt : List Nat) :
    ∀ b ∈ gcmEncrypt key nonce pt, b < 256 := by
  intro b hb
  rcases List.mem_append.1 hb with h | h
  · exact mem_zipWith_byteXor_lt _ _ b h
  · exact mem_zipWith_byteXor_lt _ _ b h

theorem xorBytes_cancel (pt ks : List Nat) (h1 : ∀ b ∈ pt, b < 256) (h2 : ∀ b ∈ ks, b < 256)
    (hlen : pt.length ≤ ks.length) :
    xorBytes (xorBytes pt ks) ks = pt := by
  induction pt generalizing ks with
  | nil => simp [xorBytes]
  | cons x xs ih =>
    cases ks with
    | nil => simp at hlen
    | cons y ys =>
      have hx : x < 256 := h1 x (by simp)
      have hy : y < 256 := h2 y (by simp)
      have hxy : byteXor (byteXor x y) y = x := by
        have h256 : x ^^^ y < 256 := Nat.xor_lt_two_pow (n := 8) hx hy
        simp [byteXor, Nat.mod_eq_of_lt h256, Nat.xor_cancel_right, Nat.mod_eq_of_lt hx]
      simp only [xorBytes, List.zipWith_cons_cons, hxy]
      exact congrArg (x :: ·)
        (ih ys (fun b hb => h1 b (by simp [hb])) (fun b hb => h2 b (by simp [hb]))
          (by simpa using hlen))

/-- AES-GCM decryption inverts encryption: the tag recomputed over the
ciphertext matches and the CTR keystream cancels. -/
theorem gcmDecrypt_gcmEncrypt (key nonce pt : List Nat) (hpt : ∀ b ∈ pt, b < 256) :
    gcmDecrypt key nonce (gcmEncrypt key nonce pt) = some pt := by
  have hks := length_gcmKeystream key nonce pt.length
  have hct_len : (xorBytes pt (gcmKeystream key nonce pt.length)).length = pt.length := by
    simp [xorBytes, hks]
  set ct := xorBytes pt (gcmKeystream key nonce pt.length) with hct
  set tag := gcmTag key nonce ct with htag
  have htag_len : tag.length = 16 := length_gcmTag key nonce ct
  have hdata_len : (ct ++ tag).length = pt.length + 16 := by
    simp [hct_len, htag_len]
  have hsub : (ct ++ tag).length - 16 = ct.length := by omega
  have htake : (ct ++ tag).take ((ct ++ tag).length - 16) = ct := by
    rw [hsub, List.take_left]
  have hdrop : (ct ++ tag).drop ((ct ++ tag).length - 16) = tag := by
    rw [hsub, List.drop_left]
  show gcmDecrypt key nonce (ct ++ tag) = some pt
  unfold gcmDecrypt
  rw [if_neg (by omega), htake, hdrop, if_pos htag.symm, hct_len, hct]
  exact congrArg some
    (xorBytes_cancel pt _ hpt (mem_gcmKeystream_lt key nonce pt.length) (by rw [hks]))

/-! ## Base64 lemmas -/

theorem b64val_b64c : ∀ n < 64, b64val (b64c n) = n := by decide

theorem b64c_ne_pad (n : Nat) : b64c n ≠ '=' := by
  by_cases h : n < 64
  · revert h
    revert n
    have : ∀ n < 64, b64c n ≠ '=' := by decide
    exact this
  · have hlen : b64Chars.length ≤ n := by
      have h64 : b64Chars.length = 64 := by decide
      omega
    rw [b64c, List.getD_eq_default _ _ hlen]
    decide

/-- Decoding a padding-free leading segment peels off exactly its bytes. -/
theorem sextets_chunk (a : List Nat) (ha : a.length % 3 = 0) (hb : ∀ b ∈ a, b < 256) (t : List Nat) :
    sextetsToBytes ((b64encode a).map b64val ++ t) = a ++ sextetsToBytes t := by
  induction a using b64encode.induct with
  | case1 => simp [b64encode]
  | case2 b1 => simp at ha
  | case3 b1 b2 => simp at ha
  | case4 b1 b2 b3 rest ih =>
    have h1 : b1 < 256 := hb b1 (by simp)
    have h2 : b2 < 256 := hb b2 (by simp)
    have h3 : b3 < 256 := hb b3 (by simp)
    have e1 : b64val (b64c (b1 / 4)) = b1 / 4 := b64val_b64c _ (by omega)
    have e2 : b64val (b64c (b1 % 4 * 16 + b2 / 16)) = b1 % 4 * 16 + b2 / 16 :=
      b64val_b64c _ (by omega)
    have e3 : b64val (b64c (b2 % 16 * 4 + b3 / 64)) = b2 % 16 * 4 + b3 / 64 :=
      b64val_b64c _ (by omega)
    have e4 : b64val (b64c (b3 % 64)) = b3 % 64 := b64val_b64c _ (by omega)
    have ha' : rest.length % 3 = 0 := by
      simp only [List.length_cons] at ha
      omega
    have hb' : ∀ b ∈ rest, b < 256 := fun b hbm => hb b (by simp [hbm])
    simp only [b64encode, List.map_cons, List.cons_append, List.append_eq, e1, e2, e3, e4,
      sextetsToBytes]
    rw [ih ha' hb']
    simp only [List.cons.injEq, and_true]
    exact ⟨by omega, by omega, by omega⟩

/-- A base64 encoding of a length-divisible-by-3 byte string has no padding. -/
theorem b64encode_no_pad (a : List Nat) (ha : a.length % 3 = 0) :
    (b64encode a).filter (fun c => c != '=') = b64encode a := by
  induction a using b64encode.induct with
  | case1 => simp [b64encode]
  | case2 b1 => simp at ha
  | case3 b1 b2 => simp at ha
  | case4 b1 b2 b3 rest ih =>
    have ha' : rest.length % 3 = 0 := by
      simp only [List.length_cons] at ha
      omega
    simp only [b64encode, List.filter_cons,
      show ((b64c (b1 / 4)) != '=') = true from bne_iff_ne.2 (b64c_ne_pad _),
      show ((b64c (b1 % 4 * 16 + b2 / 16)) != '=') = true from bne_iff_ne.2 (b64c_ne_pad _),
      show ((b64c (b2 % 16 * 4 + b3 / 64)) != '=') = true from bne_iff_ne.2 (b64c_ne_pad _),
      show ((b64c (b3 % 64)) != '=') = true from bne_iff_ne.2 (b64c_ne_pad _), if_pos]
    rw [ih ha']

/-- Base64 decoding inverts encoding. -/
theorem b64decode_b64encode (a : List Nat) (hb : ∀ b ∈ a, b < 256) :
    b64decode (b64encode a) = a := by
  induction a using b64encode.induct with
  | case1 => rfl
  | case2 b1 =>
    have h1 : b1 < 256 := hb b1 (by simp)
    have e1 : b64val (b64c (b1 / 4)) = b1 / 4 := b64val_b64c _ (by omega)
    have e2 : b64val (b64c (b1 % 4 * 16)) = b1 % 4 * 16 := b64val_b64c _ (by omega)
    simp only [b64decode, b64encode, List.filter_cons,
      show ((b64c (b1 / 4)) != '=') = true from bne_iff_ne.2 (b64c_ne_pad _),
      show ((b64c (b1 % 4 * 16)) != '=') = true from bne_iff_ne.2 (b64c_ne_pad _),
      show (('=' : Char) != '=') = false from by decide, if_pos, if_neg,
      List.filter_nil, List.map_cons, List.map_nil, e1, e2, sextetsToBytes]
    congr 1
    omega
  | case3 b1 b2 =>
    have h1 : b1 < 256 := hb b1 (by simp)
    have h2 : b2 < 256 := hb b2 (by simp)
    have e1 : b64val (b64c (b1 / 4)) = b1 / 4 := b64val_b64c _ (by omega)
    have e2 : b64val (b64c (b1 % 4 * 16 + b2 / 16)) = b1 % 4 * 16 + b2 / 16 :=
      b64val_b64c _ (by omega)
    have e3 : b64val (b64c (b2 % 16 * 4)) = b2 % 16 * 4 := b64val_b64c _ (by omega)
    simp only [b64decode, b64encode, List.filter_cons,
      show ((b64c (b1 / 4)) != '=') = true from bne_iff_ne.2 (b64c_ne_pad _),
      show ((b64c (b1 % 4 * 16 + b2 / 16)) != '=') = true from bne_iff_ne.2 (b64c_ne_pad _),
      show ((b64c (b2 % 16 * 4)) != '=') = true from bne_iff_ne.2 (b64c_ne_pad _),
      show (('=' : Char) != '=') = false from by decide, if_pos, if_neg,
      List.filter_nil, List.map_cons, List.map_nil, e1, e2, e3, sextetsToBytes]
    congr 1 <;> [skip; congr 1] <;> omega
  | case4 b1 b2 b3 rest ih =>
    have h1 : b1 < 256 := hb b1 (by simp)
    have h2 : b2 < 256 := hb b2 (by simp)
    have h3 : b3 < 256 := hb b3 (by simp)
    have hb' : ∀ b ∈ rest, b < 256 := fun b hbm => hb b (by simp [hbm])
    have e1 : b64val (b64c (b1 / 4)) = b1 / 4 := b64val_b64c _ (by omega)
    have e2 : b64val (b64c (b1 % 4 * 16 + b2 / 16)) = b1 % 4 * 16 + b2 / 16 :=
      b64val_b64c _ (by omega)
    have e3 : b64val (b64c (b2 % 16 * 4 + b3 / 64)) = b2 % 16 * 4 + b3 / 64 :=
      b64val_b64c _ (by omega)
    have e4 : b64val (b64c (b3 % 64)) = b3 % 64 := b64val_b64c _ (by omega)
    have ihv := ih hb'
    simp only [b64decode] at ihv
    simp only [b64decode, b64encode, List.filter_cons,
      show ((b64c (b1 / 4)) != '=') = true from bne_iff_ne.2 (b64c_ne_pad _),
      show ((b64c (b1 % 4 * 16 + b2 / 16)) != '=') = true from bne_iff_ne.2 (b64c_ne_pad _),
      show ((b64c (b2 % 16 * 4 + b3 / 64)) != '=') = true from bne_iff_ne.2 (b64c_ne_pad _),
      show ((b64c (b3 % 64)) != '=') = true from bne_iff_ne.2 (b64c_ne_pad _), if_pos,
      List.map_cons, e1, e2, e3, e4, sextetsToBytes]
    rw [ihv]
    congr 1 <;> [skip; congr 1 <;> [skip; congr 1]] <;> omega

/-- Decoding the concatenation of a padding-free base64 segment with a second
base64 string yields the concatenation of the two byte strings: this is why
the asymmetric envelope construction still round-trips for 12-byte nonces. -/
theorem b64decode_append (a b : List Nat) (ha : a.length % 3 = 0)
    (hba : ∀ x ∈ a, x < 256) (hbb : ∀ x ∈ b, x < 256) :
    b64decode (b64encode a ++ b64encode b) = a ++ b := by
  have htail : sextetsToBytes (((b64encode b).filter (fun c => c != '=')).map b64val) = b :=
    b64decode_b64encode b hbb
  calc b64decode (b64encode a ++ b64encode b)
      = sextetsToBytes (((b64encode a ++ b64encode b).filter (fun c => c != '=')).map b64val) := rfl
    _ = sextetsToBytes ((b64encode a).map b64val ++
          ((b64encode b).filter (fun c => c != '=')).map b64val) := by
        rw [List.filter_append, b64encode_no_pad a ha, List.map_append]
    _ = a ++ sextetsToBytes (((b64encode b).filter (fun c => c != '=')).map b64val) :=
        sextets_chunk a ha hba _
    _ = a ++ b := by rw [htail]

/-! ## Embedded constants (`credentials.ts`) -/

/-- `TUYA_CLIENT_ID` from `credentials.ts`. -/
def TUYA_CLIENT_ID : String := "HA_3y9q4ak7g4ephrvke"

/-! ## TuyaMobileAPI (`TuyaMobileAPI.ts`): per-request secret and envelope -/

namespace TuyaMobileAPI

/-- JavaScript `s.charCodeAt(i)` for in-range ASCII positions. -/
def jsCharCodeAt (s : String) (i : Nat) : Nat :=
  (s.data.getD i '\x00').toNat

/-- JavaScript string indexing `s[i]` followed by `+=` coercion: an in-range
index yields the one-character string, an out-of-range index yields
`undefined`, which `+=` renders as the text `"undefined"`. -/
def jsStringAt (s : String) (i : Nat) : String :=
  if i < s.data.length then String.mk [s.data.getD i '\x00'] else "undefined"

/-- `_secret_generating` / `generateSecret(rid, sid, hashKey)`. -/
def generateSecret (rid sid hashKey : String) : String :=
  let message :=
    if sid = "" then hashKey
    else
      let len := min sid.length 16
      let ecode := (List.range len).foldl
        (fun acc i => acc ++ jsStringAt sid (jsCharCodeAt sid i % 16)) ""
      hashKey ++ ("_" ++ ecode)
  (hmacSha256Hex rid message).take 16

/-- The `hashKey` computed in `request`: `md5(rid + refreshToken)` hex. -/
def mobileRequestHashKey (rid refreshToken : String) : String :=
  md5Hex (rid ++ refreshToken)

/-- The restricted nonce alphabet of `randomNonce`. -/
def randomNonceAlphabet : List Char :=
  "ABCDEFGHJKMNPQRSTWXYZabcdefhijkmnprstwxyz2345678".data

/-- `encryptAesGcm(rawData, secret)` with the randomly drawn 12-character
nonce made explicit: the envelope is `base64(nonceBytes)` concatenated with
`base64(ciphertext ‖ authTag)`, two independently encoded segments. -/
def encryptAesGcm (rawData secret nonce : String) : String :=
  let secretBuf := utf8Bytes secret
  let nonceBuf := utf8Bytes nonce
  let ciphertextWithTag := gcmEncrypt secretBuf nonceBuf (utf8Bytes rawData)
  String.mk (b64encode nonceBuf ++ b64encode ciphertextWithTag)

/-- `decryptAesGcm(cipherData, secret)`: base64-decode the whole envelope as
one blob, split off a 12-byte nonce, a trailing 16-byte tag, and decrypt;
`none` models the thrown decryption error. -/
def decryptAesGcm (cipherData secret : String) : Option String :=
  let fullBuffer := b64decode cipherData.data
  let nonce := fullBuffer.take 12
  let ciphertextWithTag := fullBuffer.drop 12
  (gcmDecrypt (utf8Bytes secret) nonce ciphertextWithTag).map
    fun pt => String.mk (pt.map Char.ofNat)

end TuyaMobileAPI

/-- The spec's formula for the per-request secret: the first 16 characters of
the lowercase hex HMAC-SHA256 keyed by the request id over
`MD5hex(rid + refreshToken)`, extended for a non-empty session id by `_`
followed by the index-substitution code `sid[charCodeAt(i) mod 16]` over the
first `min(len(sid), 16)` characters. -/
def specPerRequestSecret (rid rt sid : String) : String :=
  let indexSubstitutionCode := String.join ((List.range (min sid.length 16)).map
    fun i => TuyaMobileAPI.jsStringAt sid (TuyaMobileAPI.jsCharCodeAt sid i % 16))
  let hashKeyMessage := md5Hex (rid ++ rt) ++
    (if sid = "" then "" else "_" ++ indexSubstitutionCode)
  (hmacSha256Hex rid hashKeyMessage).take 16

/-! ## Plain-protocol signing (`TuyaOpenAPI.ts`, `TuyaLinkingAuth.ts`) -/

namespace TuyaOpenAPI

/-- `signRequest` (the authenticated request interceptor): timestamp, nonce
and the JSON-rendered body are explicit parameters. -/
def signRequest (accessToken timestamp nonce method path : String)
    (data : Option String) : String :=
  let bodyStr := match data with | some s => s | none => ""
  let contentHash := sha256Hex bodyStr
  let stringToSign := String.intercalate "\n" [jsToUpper method, contentHash, "", path]
  let signStr := TUYA_CLIENT_ID ++ timestamp ++ accessToken ++ nonce ++ stringToSign
  jsToUpper (hmacSha256Hex "" signStr)

/-- `requestWithoutAccessToken`'s signature: the same string-to-sign without
the access token between timestamp and nonce. -/
def requestWithoutAccessTokenSign (timestamp nonce method path : String)
    (data : Option String) : String :=
  let bodyStr := match data with | some s => s | none => ""
  let contentHash := sha256Hex bodyStr
  let stringToSign := String.intercalate "\n" [jsToUpper method, contentHash, "", path]
  let signStr := TUYA_CLIENT_ID ++ timestamp ++ nonce ++ stringToSign
  jsToUpper (hmacSha256Hex "" signStr)

end TuyaOpenAPI

namespace TuyaLinkingAuth

/-- `TuyaLinkingAuth.signRequest`: the access token is optional and appended
to the sign string only when present. -/
def signRequest (method path : String) (body : Option String)
    (accessToken : Option String) (timestamp nonce : String) : String :=
  let bodyStr := match body with | some s => s | none => ""
  let contentHash := sha256Hex bodyStr
  let stringToSign := String.intercalate "\n" [jsToUpper method, contentHash, "", path]
  let signStr0 := TUYA_CLIENT_ID ++ timestamp
  let signStr1 := match accessToken with | some t => signStr0 ++ t | none => signStr0
  let signStr := signStr1 ++ (nonce ++ stringToSign)
  jsToUpper (hmacSha256Hex "" signStr)

end TuyaLinkingAuth

/-- The spec's formula for the plain-protocol signature: uppercase hex
HMAC-SHA256 with empty key over
`clientId + timestamp + [accessToken] + nonce + METHOD \n contentHash \n "" \n path`. -/
def specPlainSignature (clientId timestamp nonce method path bodyStr : String)
    (accessToken : Option String) : String :=
  jsToUpper (hmacSha256Hex ""
    (clientId ++ timestamp ++ (match accessToken with | some t => t | none => "") ++ nonce ++
      (jsToUpper method ++ "\n" ++ sha256Hex bodyStr ++ "\n" ++ "" ++ "\n" ++ path)))

/-- `[a, b, c, d].join("\n")`. -/
theorem intercalate_newline4 (a b c d : String) :
    String.intercalate "\n" [a, b, c, d] = a ++ "\n" ++ b ++ "\n" ++ c ++ "\n" ++ d := by
  simp [String.intercalate, String.intercalate.go]

/-- C1: for every JSON plaintext and 16-character secret (and any 12-character
ASCII nonce as drawn by `randomNonce`), decrypting the envelope produced by
`encryptAesGcm` with `decryptAesGcm` returns the plaintext: the two
independently base64-encoded segments of the request path parse as the single
base64 blob the response path expects, because the 12-byte nonce encodes to
exactly 16 base64 characters with no padding. -/
theorem c1_envelope_roundtrip (p secret nonce : String)
    (hsecret : secret.length = 16)
    (hnonce : nonce.length = 12)
    (hnascii : ∀ c ∈ nonce.data, c.toNat < 128)
    (hpascii : ∀ c ∈ p.data, c.toNat < 128) :
    TuyaMobileAPI.decryptAesGcm (TuyaMobileAPI.encryptAesGcm p secret nonce) secret = some p := by
  have hNlen : (utf8Bytes nonce).length = 12 := by
    rw [utf8Bytes, List.length_map]
    exact hnonce
  have hN256 : ∀ b ∈ utf8Bytes nonce, b < 256 := by
    intro b hb
    rcases List.mem_map.1 hb with ⟨c, hc, rfl⟩
    exact lt_trans (hnascii c hc) (by norm_num)
  have hP256 : ∀ b ∈ utf8Bytes p, b < 256 := by
    intro b hb
    rcases List.mem_map.1 hb with ⟨c, hc, rfl⟩
    exact lt_trans (hpascii c hc) (by norm_num)
  simp only [TuyaMobileAPI.encryptAesGcm, TuyaMobileAPI.decryptAesGcm]
  rw [b64decode_append _ _ (by rw [hNlen]) hN256 (mem_gcmEncrypt_lt _ _ _)]
  rw [show (12 : Nat) = (utf8Bytes nonce).length from hNlen.symm, List.take_left, List.drop_left]
  rw [gcmDecrypt_gcmEncrypt _ _ _ hP256]
  have hmapback : (utf8Bytes p).map Char.ofNat = p.data := by
    simp [utf8Bytes, List.map_map, Function.comp_def, Char.ofNat_toNat]
  show some (String.mk ((utf8Bytes p).map Char.ofNat)) = some p
  rw [hmapback]

/-- Witness for C1 at a concrete JSON plaintext, 16-character secret and
12-character alphabet nonce. -/
theorem c1_envelope_roundtrip_witness :
    ("0123456789abcdef" : String).length = 16 ∧
    ("ABCDEFGHJKMN" : String).length = 12 ∧
    TuyaMobileAPI.decryptAesGcm
      (TuyaMobileAPI.encryptAesGcm "\x7b\"on\":true\x7d" "0123456789abcdef" "ABCDEFGHJKMN")
      "0123456789abcdef" = some "\x7b\"on\":true\x7d" :=
  ⟨by decide, by decide,
    c1_envelope_roundtrip "\x7b\"on\":true\x7d" "0123456789abcdef" "ABCDEFGHJKMN"
      (by decide) (by decide) (by decide) (by decide)⟩

/-- C2: for every request id, refresh token and session id, the per-request
secret produced by `generateSecret` over the `request`-path hash key equals
the spec's formula: the first 16 characters of the lowercase hex HMAC-SHA256
keyed by the request id over `MD5hex(rid + refreshToken)`, extended for a
non-empty session id by `_` and the mod-16 index-substitution code. -/
theorem c2_secret_derivation (rid rt sid : String) :
    TuyaMobileAPI.generateSecret rid sid (TuyaMobileAPI.mobileRequestHashKey rid rt)
      = specPerRequestSecret rid rt sid := by
  unfold TuyaMobileAPI.generateSecret TuyaMobileAPI.mobileRequestHashKey specPerRequestSecret
  by_cases h : sid = ""
  · simp [h]
  · have hfold : (List.range (min sid.length 16)).foldl
        (fun acc i => acc ++ TuyaMobileAPI.jsStringAt sid (TuyaMobileAPI.jsCharCodeAt sid i % 16)) ""
        = String.join ((List.range (min sid.length 16)).map
            fun i => TuyaMobileAPI.jsStringAt sid (TuyaMobileAPI.jsCharCodeAt sid i % 16)) := by
      rw [String.join, List.foldl_map]
    simp only [if_neg h, hfold]

/-- C3: for fixed client id, timestamp, nonce, access token, method, path and
body, each plain-protocol signing routine produces exactly the spec's
deterministic uppercase hex HMAC-SHA256 with empty key over
`clientId + t + [accessToken] + nonce + METHOD \n contentHash \n "" \n path`
(the access token appears only on authenticated calls). -/
theorem c3_plain_signature (accessToken timestamp nonce method path : String)
    (body : Option String) :
    TuyaOpenAPI.signRequest accessToken timestamp nonce method path body
      = specPlainSignature TUYA_CLIENT_ID timestamp nonce method path
          (match body with | some s => s | none => "") (some accessToken)
    ∧ TuyaOpenAPI.requestWithoutAccessTokenSign timestamp nonce method path body
      = specPlainSignature TUYA_CLIENT_ID timestamp nonce method path
          (match body with | some s => s | none => "") none
    ∧ ∀ oat : Option String,
        TuyaLinkingAuth.signRequest method path body oat timestamp nonce
          = specPlainSignature TUYA_CLIENT_ID timestamp nonce method path
              (match body with | some s => s | none => "") oat := by
  refine ⟨?_, ?_, ?_⟩
  · simp only [TuyaOpenAPI.signRequest, specPlainSignature, intercalate_newline4,
      String.append_assoc, String.append_empty]
  · simp only [TuyaOpenAPI.requestWithoutAccessTokenSign, specPlainSignature,
      intercalate_newline4, String.append_assoc, String.append_empty]
  · intro oat
    cases oat <;>
      simp only [TuyaLinkingAuth.signRequest, specPlainSignature, intercalate_newline4,
        String.append_assoc, String.append_empty]

/-! ## Token refresh (`TuyaOpenAPI.ts`): deduplication guard and effects -/

namespace TuyaOpenAPI

/-- The token set of `TuyaLinkingAuth.ts` (`TuyaTokens`). -/
structure TuyaTokens where
  accessToken : String
  refreshToken : String
  expiresIn : Nat
  expiresAt : Nat
  uid : String
deriving DecidableEq, Repr

/-- The refresh-guard portion of the client state: the `isRefreshing` flag,
the cached pending promise (by id), how many underlying `doRefreshToken`
operations have been started, and a fresh-promise counter. -/
structure RefreshState where
  isRefreshing : Bool
  refreshPromise : Option Nat
  started : Nat
  nextId : Nat
deriving DecidableEq, Repr

/-- The synchronous prefix of `refreshAccessToken` (the draft with the
guard), which the single-threaded event loop runs atomically up to the first
`await`: a caller without a refresh token gets the thrown error; a caller
that finds `isRefreshing && refreshPromise` is handed the cached promise;
otherwise it sets the guard, caches a fresh promise and starts the
underlying `doRefreshToken` operation (counted in `started`). -/
def refreshEnter (hasRefreshToken : Bool) (s : RefreshState) :
    Except String (RefreshState × Nat) :=
  if !hasRefreshToken then
    .error "No refresh token available. Please re-link your Tuya account."
  else if s.isRefreshing ∧ s.refreshPromise.isSome then .ok (s, s.refreshPromise.getD 0)
  else .ok ({ isRefreshing := true, refreshPromise := some s.nextId,
              started := s.started + 1, nextId := s.nextId + 1 }, s.nextId)

/-- The `finally` block of `refreshAccessToken`: runs when the awaited
promise settles, with success or failure alike, and releases the guard. -/
def refreshSettle (s : RefreshState) (success : Bool) : RefreshState :=
  { s with isRefreshing := false, refreshPromise := none }

/-- `n` concurrent `refreshAccessToken` callers, serialized in arrival order
by the event loop; returns the final state and, per caller, the thrown
error or the promise it awaits. -/
def runCallers (hasRefreshToken : Bool) (s : RefreshState) :
    Nat → RefreshState × List (Except String Nat)
  | 0 => (s, [])
  | n + 1 =>
    match refreshEnter hasRefreshToken s with
    | .error e =>
      let r := runCallers hasRefreshToken s n
      (r.1, .error e :: r.2)
    | .ok (s1, p) =>
      let r := runCallers hasRefreshToken s1 n
      (r.1, .ok p :: r.2)

theorem runCallers_inflight (s : RefreshState) (p : Nat) (n : Nat)
    (h1 : s.isRefreshing = true) (h2 : s.refreshPromise = some p) :
    runCallers true s n = (s, List.replicate n (.ok p)) := by
  induction n with
  | zero => simp [runCallers]
  | succ n ih =>
    have he : refreshEnter true s = .ok (s, p) := by
      simp [refreshEnter, h1, h2]
    simp [runCallers, he, ih, List.replicate_succ]

/-- The state of one `TuyaOpenAPI` client as far as refresh effects go:
the owned token set, whether `scheduleTokenRefresh` was invoked during the
operation under scrutiny, whether an `onTokenRefresh` callback is
registered, and the token sets handed to it during that operation. -/
structure OpenAPIState where
  tokens : Option TuyaTokens
  timerScheduled : Bool
  callbackSet : Bool
  notified : List TuyaTokens
deriving DecidableEq, Repr

/-- `doRefreshToken` (the degraded local-extension path of the guarded
draft): requires a token set, silently extends its validity by two hours,
reschedules the proactive timer and returns the replaced token set. -/
def doRefreshToken (now : Nat) (s : OpenAPIState) : Except String (OpenAPIState × TuyaTokens) :=
  match s.tokens with
  | none => .error "No tokens available. Please link your Tuya account."
  | some t =>
    let t' := { t with expiresAt := now + 2 * 60 * 60 * 1000 }
    .ok ({ s with tokens := some t', timerScheduled := true }, t')

/-- The `result` payload of a successful `/v1.0/token/{refreshToken}` call. -/
structure RefreshResponseResult where
  access_token : String
  refresh_token : String
  expire_time : Nat
  uid : String
deriving DecidableEq, Repr

/-- `refreshAccessToken` (second draft), success path: builds the new token
set from the response, reschedules the proactive timer, and fires the
registered `onTokenRefresh` callback with the new token set. -/
def refreshAccessTokenSuccess (now : Nat) (r : RefreshResponseResult) (s : OpenAPIState) :
    OpenAPIState × TuyaTokens :=
  let t : TuyaTokens :=
    { accessToken := r.access_token
      refreshToken := r.refresh_token
      expiresIn := r.expire_time
      expiresAt := now + r.expire_time * 1000
      uid := r.uid }
  ({ s with
      tokens := some t
      timerScheduled := true
      notified := if s.callbackSet then s.notified ++ [t] else s.notified }, t)

end TuyaOpenAPI

/-- C4: with one refresh in flight (guard set, promise cached), any number of
further concurrent `refreshAccessToken` callers starts no additional
underlying operation, every caller is handed the same cached pending
promise, and the guard is released when the operation settles, on success
and failure alike. -/
theorem c4_refresh_dedup (s : TuyaOpenAPI.RefreshState) (p n : Nat)
    (h1 : s.isRefreshing = true) (h2 : s.refreshPromise = some p) :
    ((TuyaOpenAPI.runCallers true s n).1.started = s.started
      ∧ (TuyaOpenAPI.runCallers true s n).2 = List.replicate n (.ok p))
    ∧ (∀ success : Bool,
        (TuyaOpenAPI.refreshSettle ((TuyaOpenAPI.runCallers true s n).1) success).isRefreshing
            = false
        ∧ (TuyaOpenAPI.refreshSettle ((TuyaOpenAPI.runCallers true s n).1) success).refreshPromise
            = none) := by
  have h := TuyaOpenAPI.runCallers_inflight s p n h1 h2
  rw [h]
  exact ⟨⟨rfl, rfl⟩, fun _ => ⟨rfl, rfl⟩⟩

/-- Witness for C4: three callers joining an in-flight refresh. -/
theorem c4_refresh_dedup_witness :
    (TuyaOpenAPI.runCallers true ⟨true, some 7, 1, 8⟩ 3).1.started = 1
    ∧ (TuyaOpenAPI.runCallers true ⟨true, some 7, 1, 8⟩ 3).2 = [.ok 7, .ok 7, .ok 7]
    ∧ (TuyaOpenAPI.refreshSettle (TuyaOpenAPI.runCallers true ⟨true, some 7, 1, 8⟩ 3).1
        false).isRefreshing = false :=
  ⟨((c4_refresh_dedup ⟨true, some 7, 1, 8⟩ 7 3 (by decide) (by decide)).1).1,
   ((c4_refresh_dedup ⟨true, some 7, 1, 8⟩ 7 3 (by decide) (by decide)).1).2,
   ((c4_refresh_dedup ⟨true, some 7, 1, 8⟩ 7 3 (by decide) (by decide)).2 false).1⟩

/-- C5 counterexample: the degraded local-extension path (`doRefreshToken`)
completes successfully on a state with a registered token-refresh listener,
replaces the token set and reschedules the timer, yet notifies no listener:
the notification log stays empty. -/
theorem c5_counterexample :
    (TuyaOpenAPI.doRefreshToken 0
        ⟨some ⟨"at", "rt", 3600, 1000, "u"⟩, false, true, []⟩).map
      (fun out => (out.1.notified, out.1.timerScheduled, out.1.tokens))
    = .ok ([], true, some ⟨"at", "rt", 3600, 7200000, "u"⟩) := rfl

/-- C5 (amended): a successful network refresh (second draft) replaces the
token set, reschedules the timer and notifies the registered listener with
the new token set; the degraded local-extension path replaces the token set
and reschedules the timer but notifies no listener. -/
theorem c5_refresh_effects (now : Nat) (s : TuyaOpenAPI.OpenAPIState)
    (t : TuyaOpenAPI.TuyaTokens) (h : s.tokens = some t)
    (r : TuyaOpenAPI.RefreshResponseResult) :
    (TuyaOpenAPI.doRefreshToken now s
      = .ok ({ s with
                tokens := some ({ t with expiresAt := now + 2 * 60 * 60 * 1000 })
                timerScheduled := true },
             ({ t with expiresAt := now + 2 * 60 * 60 * 1000 })))
    ∧ ((TuyaOpenAPI.refreshAccessTokenSuccess now r s).1.tokens
        = some (TuyaOpenAPI.refreshAccessTokenSuccess now r s).2
      ∧ (TuyaOpenAPI.refreshAccessTokenSuccess now r s).1.timerScheduled = true
      ∧ (s.callbackSet = true →
          (TuyaOpenAPI.refreshAccessTokenSuccess now r s).1.notified
            = s.notified ++ [(TuyaOpenAPI.refreshAccessTokenSuccess now r s).2])) := by
  refine ⟨?_, rfl, rfl, ?_⟩
  · simp [TuyaOpenAPI.doRefreshToken, h]
  · intro hcb
    simp [TuyaOpenAPI.refreshAccessTokenSuccess, hcb]

/-- Witness for C5's amended theorem at a concrete state and response. -/
theorem c5_refresh_effects_witness :
    (TuyaOpenAPI.doRefreshToken 5 ⟨some ⟨"a", "r", 10, 99, "u"⟩, false, true, []⟩
      = .ok (⟨some ⟨"a", "r", 10, 7200005, "u"⟩, true, true, []⟩, ⟨"a", "r", 10, 7200005, "u"⟩))
    ∧ (TuyaOpenAPI.refreshAccessTokenSuccess 5 ⟨"na", "nr", 20, "u2"⟩
        ⟨some ⟨"a", "r", 10, 99, "u"⟩, false, true, []⟩).1.notified = [⟨"na", "nr", 20, 20005, "u2"⟩] := by
  have h := c5_refresh_effects 5 ⟨some ⟨"a", "r", 10, 99, "u"⟩, false, true, []⟩
    ⟨"a", "r", 10, 99, "u"⟩ (by decide) ⟨"na", "nr", 20, "u2"⟩
  exact ⟨h.1, by rw [h.2.2.2 (by decide)]; decide⟩

/-! ## State translation service (`api/index.ts`, class `TuyaWebApi`) and the
accessory-facing wrapper (`api/TuyaWebApi.ts`, also class `TuyaWebApi`) -/

/-- A JavaScript status/command value. -/
inductive JSValue where
  | bool (b : Bool)
  | num (q : ℚ)
  | str (s : String)
deriving DecidableEq, Repr

/-- One raw provider status entry `{code, value}`. -/
structure StatusEntry where
  code : String
  value : JSValue
deriving DecidableEq, Repr

/-- `DeviceCodeMapping` from `response.ts`. -/
structure DeviceCodeMapping where
  category : String
  devType : String
  switchCode : String
  brightnessCode : Option String := none
  colourCode : Option String := none
  tempValueCode : Option String := none
  workModeCode : Option String := none
  fanSpeedCode : Option String := none
  controlCode : Option String := none
deriving DecidableEq, Repr

namespace TuyaWebApi

/-- `buildCodeMapping(category, devType, status)`. -/
def buildCodeMapping (category devType : String) (status : List StatusEntry) : DeviceCodeMapping :=
  let codes := status.map (·.code)
  let m : DeviceCodeMapping := { category := category, devType := devType, switchCode := "switch" }
  let m := if codes.contains "switch_led" then { m with switchCode := "switch_led" }
    else if codes.contains "switch_1" then { m with switchCode := "switch_1" }
    else if codes.contains "switch" then { m with switchCode := "switch" } else m
  let m := if codes.contains "bright_value_v2" then { m with brightnessCode := some "bright_value_v2" }
    else if codes.contains "bright_value" then { m with brightnessCode := some "bright_value" } else m
  let m := if codes.contains "colour_data_v2" then { m with colourCode := some "colour_data_v2" }
    else if codes.contains "colour_data" then { m with colourCode := some "colour_data" } else m
  let m := if codes.contains "temp_value_v2" then { m with tempValueCode := some "temp_value_v2" }
    else if codes.contains "temp_value" then { m with tempValueCode := some "temp_value" } else m
  let m := if codes.contains "work_mode" then { m with workModeCode := some "work_mode" } else m
  let m := if codes.contains "fan_speed_percent" then { m with fanSpeedCode := some "fan_speed_percent" }
    else if codes.contains "speed" then { m with fanSpeedCode := some "speed" } else m
  let m := if codes.contains "control" then { m with controlCode := some "control" } else m
  m

/-- The method names of the `TuyaApiMethod` union consumed by
`translateMethodToCommands`. -/
inductive TuyaApiMethod where
  | turnOnOff
  | brightnessSet
  | colorSet
  | colorTemperatureSet
  | windSpeedSet
  | modeSet
  | temperatureSet
  | startStop
deriving DecidableEq, Repr

/-- The `color` member of a `colorSet` payload. -/
structure ColorPayload where
  hue : ℚ
  saturation : ℚ
  brightness : ℚ
deriving DecidableEq, Repr

/-- The duck-typed payload: each method reads the member it expects. -/
structure Payload where
  value : ℚ := 0
  color : ColorPayload := ⟨0, 0, 0⟩
  modeStr : String := ""
deriving DecidableEq, Repr

/-- A command value; `hsvJson h s v` stands for the string
`JSON.stringify({h, s, v})`. -/
inductive CommandValue where
  | bool (b : Bool)
  | num (q : ℚ)
  | int (n : ℤ)
  | str (s : String)
  | hsvJson (h s v : ℚ)
deriving DecidableEq, Repr

/-- `meta?.field ?? dflt`. -/
def metaCode (meta : Option DeviceCodeMapping) (f : DeviceCodeMapping → Option String)
    (dflt : String) : String :=
  match meta with
  | some m => (f m).getD dflt
  | none => dflt

/-- `translateMethodToCommands` (`api/index.ts`). -/
def translateMethodToCommands (meta : Option DeviceCodeMapping) (method : TuyaApiMethod)
    (payload : Payload) : List (String × CommandValue) :=
  match method with
  | .turnOnOff =>
    let isOn := payload.value == 1
    match meta with
    | some m =>
      if m.controlCode.isSome && (m.devType == "cover" || m.devType == "window") then
        [(m.controlCode.getD "", .str (if isOn then "open" else "close"))]
      else [(m.switchCode, .bool isOn)]
    | none => [("switch", .bool isOn)]
  | .brightnessSet =>
    [(metaCode meta (·.brightnessCode) "bright_value_v2", .num payload.value)]
  | .colorSet =>
    (match (match meta with | some m => m.workModeCode | none => none) with
      | some w => [(w, CommandValue.str "colour")]
      | none => []) ++
    [(metaCode meta (·.colourCode) "colour_data_v2",
      .hsvJson payload.color.hue ((jsRound (payload.color.saturation * 1000) : ℤ) : ℚ)
        payload.color.brightness)]
  | .colorTemperatureSet =>
    (match (match meta with | some m => m.workModeCode | none => none) with
      | some w => [(w, CommandValue.str "white")]
      | none => []) ++
    [(metaCode meta (·.tempValueCode) "temp_value_v2", .num payload.value)]
  | .windSpeedSet =>
    [(metaCode meta (·.fanSpeedCode) "fan_speed_percent", .num payload.value)]
  | .modeSet => [("mode", .str payload.modeStr)]
  | .temperatureSet => [("temp_set", .num payload.value)]
  | .startStop => [(metaCode meta (·.controlCode) "control", .str "stop")]

/-- The cached `device.data` consulted by the wrapper's
`convertMethodToCommands`; `colorH` is `data.color?.h`. -/
structure CachedDeviceData where
  brightness : Option ℚ := none
  color_temp : Option ℚ := none
  colorH : Option ℚ := none
  state : Option Bool := none
deriving DecidableEq, Repr

/-- A cached device entry of the wrapper (`deviceCache`). -/
structure CachedDevice where
  dev_type : String := ""
  category : String := ""
  data : Option CachedDeviceData := none
deriving DecidableEq, Repr

/-- The method names of the wrapper's `TuyaApiMethod` union. -/
inductive OldApiMethod where
  | turnOnOff
  | brightnessSet
  | colorTemperatureSet
  | colorSet
  | speedSet
  | windSpeedSet
  | setPosition
  | setTemperature
  | setMode
  | startStop
  | triggerScene
deriving DecidableEq, Repr

/-- `getSwitchCode` (`api/TuyaWebApi.ts`). -/
def getSwitchCode (device : Option CachedDevice) : String :=
  let devType := match device with
    | some d => if d.dev_type != "" then d.dev_type else if d.category != "" then d.category else ""
    | none => ""
  if ["light", "dj", "dd", "fwd", "dc", "xdd", "fsd"].contains devType then "switch_led"
  else if ((device.bind (·.data)).bind (·.state)).isSome then "switch_1"
  else "switch_1"

/-- `convertMethodToCommands` (`api/TuyaWebApi.ts`). -/
def convertMethodToCommands (device : Option CachedDevice) (method : OldApiMethod)
    (p : Payload) : List (String × CommandValue) :=
  match method with
  | .turnOnOff => [(getSwitchCode device, .bool (p.value == 1))]
  | .brightnessSet =>
    let usesV2 := match (device.bind (·.data)).bind (·.brightness) with
      | some b => decide (b > 100)
      | none => false
    if usesV2 then [("bright_value_v2", .int (jsRound (p.value * 10)))]
    else [("bright_value", .int (max 25 (min 255 (jsRound (p.value / 100 * 255)))))]
  | .colorTemperatureSet =>
    let hasV2 := ((device.bind (·.data)).bind (·.color_temp)).isSome
    if hasV2 then [("temp_value_v2", .num p.value)] else [("temp_value", .num p.value)]
  | .colorSet =>
    let hasV2 := ((device.bind (·.data)).bind (·.colorH)).isSome
    (if hasV2 then
      [("colour_data_v2",
        CommandValue.hsvJson ((jsRound p.color.hue : ℤ) : ℚ)
          ((jsRound (p.color.saturation * 1000) : ℤ) : ℚ)
          ((jsRound (p.color.brightness * 10) : ℤ) : ℚ))]
    else
      [("colour_data",
        CommandValue.hsvJson ((max 1 (min 360 (jsRound p.color.hue)) : ℤ) : ℚ)
          ((jsRound (p.color.saturation * (2.55 : ℚ)) : ℤ) : ℚ)
          ((jsRound (p.color.brightness * (2.55 : ℚ)) : ℤ) : ℚ))]) ++
    [("work_mode", .str "colour")]
  | .speedSet | .windSpeedSet => [("fan_speed_percent", .num p.value)]
  | .setPosition => [("percent_control", .num p.value)]
  | .setTemperature => [("temp_set", .num p.value)]
  | .setMode => [("mode", .str p.modeStr)]
  | .startStop => [("control", .str "stop")]
  | .triggerScene => []

end TuyaWebApi

/-- C6: `buildCodeMapping` selects capabilities by fixed priority evaluated
independently per capability: switch prefers `switch_led`, then `switch_1`,
then `switch`; brightness, colour and temp-value codes prefer the v2 variant
over the legacy one; fan speed prefers `fan_speed_percent` over `speed`.
In particular `["switch_1","bright_value_v2","bright_value"]` resolves to
`switch_1` and `bright_value_v2`. -/
theorem c6_code_mapping_priorities (category devType : String) (status : List StatusEntry) :
    ((TuyaWebApi.buildCodeMapping category devType status).switchCode
      = (if (status.map (·.code)).contains "switch_led" then "switch_led"
         else if (status.map (·.code)).contains "switch_1" then "switch_1" else "switch"))
    ∧ ((TuyaWebApi.buildCodeMapping category devType status).brightnessCode
      = (if (status.map (·.code)).contains "bright_value_v2" then some "bright_value_v2"
         else if (status.map (·.code)).contains "bright_value" then some "bright_value" else none))
    ∧ ((TuyaWebApi.buildCodeMapping category devType status).colourCode
      = (if (status.map (·.code)).contains "colour_data_v2" then some "colour_data_v2"
         else if (status.map (·.code)).contains "colour_data" then some "colour_data" else none))
    ∧ ((TuyaWebApi.buildCodeMapping category devType status).tempValueCode
      = (if (status.map (·.code)).contains "temp_value_v2" then some "temp_value_v2"
         else if (status.map (·.code)).contains "temp_value" then some "temp_value" else none))
    ∧ ((TuyaWebApi.buildCodeMapping category devType status).fanSpeedCode
      = (if (status.map (·.code)).contains "fan_speed_percent" then some "fan_speed_percent"
         else if (status.map (·.code)).contains "speed" then some "speed" else none))
    ∧ ((TuyaWebApi.buildCodeMapping "dj" "light"
          [⟨"switch_1", .bool true⟩, ⟨"bright_value_v2", .num 550⟩,
           ⟨"bright_value", .num 128⟩]).switchCode = "switch_1"
       ∧ (TuyaWebApi.buildCodeMapping "dj" "light"
          [⟨"switch_1", .bool true⟩, ⟨"bright_value_v2", .num 550⟩,
           ⟨"bright_value", .num 128⟩]).brightnessCode = some "bright_value_v2") := by
  refine ⟨?_, ?_, ?_, ?_, ?_, by decide⟩ <;>
    simp only [TuyaWebApi.buildCodeMapping,
      apply_ite DeviceCodeMapping.switchCode, apply_ite DeviceCodeMapping.brightnessCode,
      apply_ite DeviceCodeMapping.colourCode, apply_ite DeviceCodeMapping.tempValueCode,
      apply_ite DeviceCodeMapping.fanSpeedCode, ite_self]

/-! ## Brightness translation (`TuyaDeviceAPI.setBrightness`,
`TuyaAccessory.getBrightness`, `BrightnessCharacteristic.updateValue`) -/

namespace TuyaDeviceAPI

/-- `setBrightness`, `bright_value_v2` branch: `Math.round(brightness * 10)`. -/
def setBrightnessV2Value (brightness : ℚ) : ℤ :=
  jsRound (brightness * 10)

/-- `setBrightness`, `bright_value` branch:
`Math.max(25, Math.min(255, Math.round((brightness / 100) * 255)))`. -/
def setBrightnessV1Value (brightness : ℚ) : ℤ :=
  max 25 (min 255 (jsRound (brightness / 100 * 255)))

end TuyaDeviceAPI

namespace TuyaAccessory

/-- `getBrightness`, `bright_value_v2` branch: `Math.round(v2 / 10)`. -/
def getBrightnessV2 (v2 : ℚ) : ℤ :=
  jsRound (v2 / 10)

/-- `getBrightness`, `bright_value` branch: `Math.round((v1 / 255) * 100)`. -/
def getBrightnessV1 (v1 : ℚ) : ℤ :=
  jsRound (v1 / 255 * 100)

end TuyaAccessory

namespace BrightnessCharacteristic

/-- The clamp step of `updateValue`: values above 100 clamp to 100 and
values below 0 clamp to 0, each with a warning logged (the `Bool`). -/
def clampHomekitBrightness (homekitValue : ℚ) : ℚ × Bool :=
  if homekitValue > 100 then (100, true)
  else if homekitValue < 0 then (0, true)
  else (homekitValue, false)

/-- `updateValue`'s numeric result: clamp to the HomeKit range, then
`Math.round` for HomeKit, together with whether a warning was logged. -/
def updateValueResult (homekitValue : ℚ) : ℤ × Bool :=
  (jsRound (clampHomekitBrightness homekitValue).1, (clampHomekitBrightness homekitValue).2)

end BrightnessCharacteristic

/-- `Math.round` of an integer is itself. -/
theorem jsRound_intCast (n : ℤ) : jsRound (n : ℚ) = n := by
  unfold jsRound
  refine Int.floor_eq_iff.2 ⟨?_, ?_⟩
  · linarith
  · linarith

/-- C7: brightness v2 translation: raw 550 reads back as canonical 55, a
canonical intent of 100 is sent as raw 1000, every canonical integer value
round-trips exactly through the two conversions, and `updateValue` clamps
out-of-range mapped values into [0, 100], logging a warning exactly when the
incoming value was out of range. -/
theorem c7_brightness_translation :
    TuyaAccessory.getBrightnessV2 550 = 55
    ∧ TuyaDeviceAPI.setBrightnessV2Value 100 = 1000
    ∧ (∀ b : ℤ, TuyaAccessory.getBrightnessV2 ((TuyaDeviceAPI.setBrightnessV2Value (b : ℚ) : ℤ) : ℚ) = b)
    ∧ (∀ h : ℚ,
        0 ≤ (BrightnessCharacteristic.updateValueResult h).1
        ∧ (BrightnessCharacteristic.updateValueResult h).1 ≤ 100
        ∧ ((BrightnessCharacteristic.updateValueResult h).2 = true ↔ (100 < h ∨ h < 0))) := by
  refine ⟨?_, ?_, ?_, ?_⟩
  · show jsRound ((550 : ℚ) / 10) = 55
    have he : ((550 : ℚ) / 10) = ((55 : ℤ) : ℚ) := by norm_num
    rw [he, jsRound_intCast]
  · show jsRound ((100 : ℚ) * 10) = 1000
    have he : ((100 : ℚ) * 10) = ((1000 : ℤ) : ℚ) := by norm_num
    rw [he, jsRound_intCast]
  · intro b
    unfold TuyaDeviceAPI.setBrightnessV2Value TuyaAccessory.getBrightnessV2
    have he1 : ((b : ℚ) * 10) = ((b * 10 : ℤ) : ℚ) := by push_cast; ring
    rw [he1, jsRound_intCast]
    have he2 : (((b * 10 : ℤ) : ℚ) / 10) = (b : ℚ) := by push_cast; ring
    rw [he2, jsRound_intCast]
  · intro h
    unfold BrightnessCharacteristic.updateValueResult BrightnessCharacteristic.clampHomekitBrightness
    have h100 : jsRound (100 : ℚ) = 100 := by exact_mod_cast jsRound_intCast 100
    have hz : jsRound (0 : ℚ) = 0 := by exact_mod_cast jsRound_intCast 0
    split_ifs with h1 h2 <;> dsimp only
    · simp only [h100]
      exact ⟨by norm_num, by norm_num, by simp only [true_iff]; exact Or.inl h1⟩
    · simp only [hz]
      exact ⟨by norm_num, by norm_num, by simp only [true_iff]; exact Or.inr h2⟩
    · push_neg at h1 h2
      refine ⟨?_, ?_, ?_⟩
      · exact Int.floor_nonneg.2 (by linarith)
      · have hlt : jsRound h < 101 := Int.floor_lt.2 (by linarith)
        omega
      · simp only [false_iff]
        push_neg
        exact ⟨h1, h2⟩

/-- C8 counterexample: in the wrapper's `convertMethodToCommands`, a
`colorSet` intent emits the colour value command first and the `work_mode`
command after it, and a `colorTemperatureSet` intent emits no `work_mode`
command at all — refuting, on these paths, that a work-mode command is
emitted before the value command. -/
theorem c8_work_mode_counterexample :
    ((TuyaWebApi.convertMethodToCommands none .colorSet
        { value := 0, color := ⟨120, 50, 80⟩, modeStr := "" }).map Prod.fst
      = ["colour_data", "work_mode"])
    ∧ ¬ ((TuyaWebApi.convertMethodToCommands none .colorSet
          { value := 0, color := ⟨120, 50, 80⟩, modeStr := "" }).map Prod.fst).indexOf "work_mode"
        < ((TuyaWebApi.convertMethodToCommands none .colorSet
          { value := 0, color := ⟨120, 50, 80⟩, modeStr := "" }).map Prod.fst).indexOf "colour_data"
    ∧ "work_mode" ∉ (TuyaWebApi.convertMethodToCommands none .colorTemperatureSet
        { value := 500, color := ⟨0, 0, 0⟩, modeStr := "" }).map Prod.fst :=
  ⟨by decide, by decide, by decide⟩

/-- C8 (amended): in the service's `translateMethodToCommands`, when the
mapping has a work-mode code, the work-mode command (`colour` for color,
`white` for color temperature) is emitted before the value command; the
wrapper's `convertMethodToCommands` instead appends `work_mode` after the
colour value command on `colorSet` and emits no work-mode command on
`colorTemperatureSet`. -/
theorem c8_work_mode_ordering (meta : DeviceCodeMapping) (w : String)
    (hw : meta.workModeCode = some w) (p : TuyaWebApi.Payload)
    (device : Option TuyaWebApi.CachedDevice) :
    (TuyaWebApi.translateMethodToCommands (some meta) .colorSet p
      = (w, .str "colour") :: [(meta.colourCode.getD "colour_data_v2",
          .hsvJson p.color.hue ((jsRound (p.color.saturation * 1000) : ℤ) : ℚ)
            p.color.brightness)])
    ∧ (TuyaWebApi.translateMethodToCommands (some meta) .colorTemperatureSet p
      = (w, .str "white") :: [(meta.tempValueCode.getD "temp_value_v2", .num p.value)])
    ∧ ((TuyaWebApi.convertMethodToCommands device .colorSet p).map Prod.fst
      = [(if ((device.bind (·.data)).bind (·.colorH)).isSome then "colour_data_v2"
          else "colour_data"), "work_mode"])
    ∧ ((TuyaWebApi.convertMethodToCommands device .colorTemperatureSet p).map Prod.fst
      = [if ((device.bind (·.data)).bind (·.color_temp)).isSome then "temp_value_v2"
         else "temp_value"]) := by
  refine ⟨?_, ?_, ?_, ?_⟩
  · simp [TuyaWebApi.translateMethodToCommands, TuyaWebApi.metaCode, hw]
  · simp [TuyaWebApi.translateMethodToCommands, TuyaWebApi.metaCode, hw]
  · cases hv2 : ((device.bind (·.data)).bind (·.colorH)).isSome <;>
      simp [TuyaWebApi.convertMethodToCommands, hv2]
  · cases hv2 : ((device.bind (·.data)).bind (·.color_temp)).isSome <;>
      simp [TuyaWebApi.convertMethodToCommands, hv2]

/-- Witness for C8's amended theorem at a concrete mapping and payload. -/
theorem c8_work_mode_ordering_witness :
    TuyaWebApi.translateMethodToCommands
      (some ⟨"dj", "light", "switch_led", none, none, none, some "work_mode", none, none⟩)
      .colorTemperatureSet ⟨500, ⟨0, 0, 0⟩, ""⟩
      = [("work_mode", .str "white"), ("temp_value_v2", .num 500)] :=
  (c8_work_mode_ordering
      ⟨"dj", "light", "switch_led", none, none, none, some "work_mode", none, none⟩
      "work_mode" rfl ⟨500, ⟨0, 0, 0⟩, ""⟩ none).2.1

/-! ## Error taxonomy mapping (`setDeviceState` in `api/index.ts`) -/

namespace TuyaWebApi

/-- The error taxonomy surfaced by `setDeviceState`; `passthrough` is the
re-thrown raw error of the final `throw e`. -/
inductive TuyaError where
  | unsupportedOperation (message detail : String)
  | rateLimit (message detail : String)
  | deviceOffline
  | passthrough (message : String)
deriving DecidableEq, Repr

/-- JavaScript `msg.includes(sub)`. -/
def jsIncludes (s sub : String) : Bool :=
  decide (sub.data <:+: s.data)

/-- The `catch` block of `setDeviceState`: maps a provider failure message
onto the error taxonomy. -/
def mapSendCommandError (msg : String) : TuyaError :=
  if jsIncludes msg "2009" || jsIncludes msg "UnsupportedOperation" then
    .unsupportedOperation "Unsupported operation" msg
  else if jsIncludes msg "1100" || jsIncludes msg "1101" || jsIncludes msg "FrequentlyInvoke" then
    .rateLimit "Rate limited" msg
  else if jsIncludes msg "2013" || jsIncludes msg "TargetOffline" then
    .deviceOffline
  else .passthrough msg

/-- `setDeviceState`'s send-command outcome handling: a rejected provider
call is mapped through the taxonomy, a successful one returns unit. -/
def setDeviceState (sendOutcome : Except String Unit) : Except TuyaError Unit :=
  match sendOutcome with
  | .ok _ => .ok ()
  | .error msg => .error (mapSendCommandError msg)

end TuyaWebApi

/-- C9: a rejected send-command call is mapped to the error taxonomy at the
boundary: messages carrying `2009` or `UnsupportedOperation` raise
`UnsupportedOperationError`; messages carrying `1100`, `1101` or
`FrequentlyInvoke` (and no unsupported-operation marker) raise
`RateLimitError`; messages carrying `2013` or `TargetOffline` (and no
earlier marker) raise `DeviceOfflineError`; in all these cases the raw
provider error is not re-thrown past the boundary. -/
theorem c9_error_taxonomy (msg : String) :
    ((TuyaWebApi.jsIncludes msg "2009" || TuyaWebApi.jsIncludes msg "UnsupportedOperation") = true →
      TuyaWebApi.setDeviceState (.error msg)
        = .error (.unsupportedOperation "Unsupported operation" msg))
    ∧ ((TuyaWebApi.jsIncludes msg "2009" || TuyaWebApi.jsIncludes msg "UnsupportedOperation") = false →
       (TuyaWebApi.jsIncludes msg "1100" || TuyaWebApi.jsIncludes msg "1101"
          || TuyaWebApi.jsIncludes msg "FrequentlyInvoke") = true →
      TuyaWebApi.setDeviceState (.error msg) = .error (.rateLimit "Rate limited" msg))
    ∧ ((TuyaWebApi.jsIncludes msg "2009" || TuyaWebApi.jsIncludes msg "UnsupportedOperation") = false →
       (TuyaWebApi.jsIncludes msg "1100" || TuyaWebApi.jsIncludes msg "1101"
          || TuyaWebApi.jsIncludes msg "FrequentlyInvoke") = false →
       (TuyaWebApi.jsIncludes msg "2013" || TuyaWebApi.jsIncludes msg "TargetOffline") = true →
      TuyaWebApi.setDeviceState (.error msg) = .error .deviceOffline)
    ∧ (((TuyaWebApi.jsIncludes msg "2009" || TuyaWebApi.jsIncludes msg "UnsupportedOperation") = true
        ∨ (TuyaWebApi.jsIncludes msg "1100" || TuyaWebApi.jsIncludes msg "1101"
            || TuyaWebApi.jsIncludes msg "FrequentlyInvoke") = true
        ∨ (TuyaWebApi.jsIncludes msg "2013" || TuyaWebApi.jsIncludes msg "TargetOffline") = true) →
      ∀ raw : String, TuyaWebApi.setDeviceState (.error msg) ≠ .error (.passthrough raw)) := by
  refine ⟨?_, ?_, ?_, ?_⟩
  · intro h1
    simp [TuyaWebApi.setDeviceState, TuyaWebApi.mapSendCommandError, h1]
  · intro h1 h2
    simp [TuyaWebApi.setDeviceState, TuyaWebApi.mapSendCommandError, h1, h2]
  · intro h1 h2 h3
    simp [TuyaWebApi.setDeviceState, TuyaWebApi.mapSendCommandError, h1, h2, h3]
  · intro hcase raw
    simp only [TuyaWebApi.setDeviceState, TuyaWebApi.mapSendCommandError]
    rcases hcase with h | h | h
    · simp [h]
    · by_cases h1 : (TuyaWebApi.jsIncludes msg "2009"
          || TuyaWebApi.jsIncludes msg "UnsupportedOperation") = true <;> simp [h1, h]
    · by_cases h1 : (TuyaWebApi.jsIncludes msg "2009"
          || TuyaWebApi.jsIncludes msg "UnsupportedOperation") = true
      · simp [h1]
      · by_cases h2 : (TuyaWebApi.jsIncludes msg "1100" || TuyaWebApi.jsIncludes msg "1101"
            || TuyaWebApi.jsIncludes msg "FrequentlyInvoke") = true <;> simp [h1, h2, h]

/-- Witness for C9 at concrete provider failure messages for each code. -/
theorem c9_error_taxonomy_witness :
    TuyaWebApi.setDeviceState (.error "request failed with code 2009")
      = .error (.unsupportedOperation "Unsupported operation" "request failed with code 2009")
    ∧ TuyaWebApi.setDeviceState (.error "FrequentlyInvoke: code 1101")
      = .error (.rateLimit "Rate limited" "FrequentlyInvoke: code 1101")
    ∧ TuyaWebApi.setDeviceState (.error "TargetOffline (2013)") = .error .deviceOffline :=
  ⟨(c9_error_taxonomy "request failed with code 2009").1 (by decide),
   (c9_error_taxonomy "FrequentlyInvoke: code 1101").2.1 (by decide) (by decide),
   (c9_error_taxonomy "TargetOffline (2013)").2.2.1 (by decide) (by decide) (by decide)⟩

/-! ## Device-state cache (`helpers/cache.ts`) -/

/-- The nested `color` member of a `DeviceState` (`response.ts`). -/
structure ColorState where
  hue : Option String := none
  saturation : Option String := none
  brightness : Option String := none
deriving DecidableEq, Repr

/-- `DeviceState` from `response.ts`: every property is optional; a `none`
field models an absent key. -/
structure DeviceState where
  brightness : Option JSValue := none
  color : Option ColorState := none
  color_mode : Option String := none
  color_temp : Option JSValue := none
  current_temperature : Option JSValue := none
  max_temper : Option JSValue := none
  min_temper : Option JSValue := none
  mode : Option String := none
  online : Option JSValue := none
  speed : Option JSValue := none
  speed_level : Option JSValue := none
  state : Option JSValue := none
  support_stop : Option JSValue := none
  temperature : Option JSValue := none
  target_cover_state : Option JSValue := none
deriving DecidableEq, Repr

/-- The JavaScript spread merge `{...v, ...d}`: a key present in `d`
overrides, a key absent from `d` keeps `v`'s value. -/
def mergeDeviceState (v d : DeviceState) : DeviceState where
  brightness := d.brightness <|> v.brightness
  color := d.color <|> v.color
  color_mode := d.color_mode <|> v.color_mode
  color_temp := d.color_temp <|> v.color_temp
  current_temperature := d.current_temperature <|> v.current_temperature
  max_temper := d.max_temper <|> v.max_temper
  min_temper := d.min_temper <|> v.min_temper
  mode := d.mode <|> v.mode
  online := d.online <|> v.online
  speed := d.speed <|> v.speed
  speed_level := d.speed_level <|> v.speed_level
  state := d.state <|> v.state
  support_stop := d.support_stop <|> v.support_stop
  temperature := d.temperature <|> v.temperature
  target_cover_state := d.target_cover_state <|> v.target_cover_state

/-- `TUYA_DEVICE_TIMEOUT` from `settings.ts`, in seconds. -/
def TUYA_DEVICE_TIMEOUT : Nat := 60

/-- The `Cache` state: the merged value and the expiry epoch (seconds). -/
structure Cache where
  value : Option DeviceState := none
  validUntil : Nat := 0
deriving DecidableEq, Repr

namespace Cache

/-- `get valid()` at the current epoch `now`. -/
def valid (c : Cache) (now : Nat) : Bool :=
  decide (c.validUntil > now) && c.value.isSome

/-- `merge(data)`: `this.value = { ...this.value, ...data }`. -/
def merge (c : Cache) (d : DeviceState) : Cache :=
  { c with value := some (mergeDeviceState (c.value.getD {}) d) }

/-- `set(data)` at epoch `now`: refresh the expiry window, then merge. -/
def set (c : Cache) (now : Nat) (d : DeviceState) : Cache :=
  ({ c with validUntil := now + TUYA_DEVICE_TIMEOUT + 5 } : Cache).merge d

/-- `get(always)` at epoch `now`. -/
def get (c : Cache) (now : Nat) (always : Bool) : Option DeviceState :=
  if !always && !(c.valid now) then none else c.value

end Cache

/-- C10: after `Cache.set(d)` on a cache holding `v`, the cached value is the
merge of `v` and `d` — every field of `v` absent from `d` keeps its previous
value — and `get` with `always = false` returns the merged value inside the
validity window and `null` once `TUYA_DEVICE_TIMEOUT + 5` seconds have
elapsed since the set. -/
theorem c10_cache_merge_and_expiry (c : Cache) (v d : DeviceState) (t tq : Nat)
    (hv : c.value = some v) :
    ((c.set t d).value = some (mergeDeviceState v d))
    ∧ ((d.brightness = none → (mergeDeviceState v d).brightness = v.brightness)
      ∧ (d.color = none → (mergeDeviceState v d).color = v.color)
      ∧ (d.color_mode = none → (mergeDeviceState v d).color_mode = v.color_mode)
      ∧ (d.color_temp = none → (mergeDeviceState v d).color_temp = v.color_temp)
      ∧ (d.current_temperature = none →
          (mergeDeviceState v d).current_temperature = v.current_temperature)
      ∧ (d.max_temper = none → (mergeDeviceState v d).max_temper = v.max_temper)
      ∧ (d.min_temper = none → (mergeDeviceState v d).min_temper = v.min_temper)
      ∧ (d.mode = none → (mergeDeviceState v d).mode = v.mode)
      ∧ (d.online = none → (mergeDeviceState v d).online = v.online)
      ∧ (d.speed = none → (mergeDeviceState v d).speed = v.speed)
      ∧ (d.speed_level = none → (mergeDeviceState v d).speed_level = v.speed_level)
      ∧ (d.state = none → (mergeDeviceState v d).state = v.state)
      ∧ (d.support_stop = none → (mergeDeviceState v d).support_stop = v.support_stop)
      ∧ (d.temperature = none → (mergeDeviceState v d).temperature = v.temperature)
      ∧ (d.target_cover_state = none →
          (mergeDeviceState v d).target_cover_state = v.target_cover_state))
    ∧ (t + TUYA_DEVICE_TIMEOUT + 5 ≤ tq → (c.set t d).get tq false = none)
    ∧ (tq < t + TUYA_DEVICE_TIMEOUT + 5 →
        (c.set t d).get tq false = some (mergeDeviceState v d)) := by
  refine ⟨?_, ?_, ?_, ?_⟩
  · simp [Cache.set, Cache.merge, hv]
  · refine ⟨?_, ?_, ?_, ?_, ?_, ?_, ?_, ?_, ?_, ?_, ?_, ?_, ?_, ?_, ?_⟩ <;>
      (intro hf; simp [mergeDeviceState, hf])
  · intro hexp
    have hd : decide ((c.set t d).validUntil > tq) = false := by
      simp only [Cache.set, Cache.merge]
      exact decide_eq_false (by omega)
    simp [Cache.get, Cache.valid, hd]
  · intro hin
    have hd : decide ((c.set t d).validUntil > tq) = true := by
      simp only [Cache.set, Cache.merge]
      exact decide_eq_true (by omega)
    simp [Cache.get, Cache.valid, hd, Cache.set, Cache.merge, hv]
    exact hin

/-- Witness for C10: a brightness-only update at epoch 100 preserves the
previously observed on/off state, and the cache expires 65 seconds later. -/
theorem c10_cache_witness :
    ((Cache.mk (some { state := some (.bool true) }) 0).set 100
        { brightness := some (.num 42) }).value
      = some { state := some (.bool true), brightness := some (.num 42) }
    ∧ ((Cache.mk (some { state := some (.bool true) }) 0).set 100
        { brightness := some (.num 42) }).get 165 false = none
    ∧ ((Cache.mk (some { state := some (.bool true) }) 0).set 100
        { brightness := some (.num 42) }).get 164 false
      = some { state := some (.bool true), brightness := some (.num 42) } := by
  have h := c10_cache_merge_and_expiry (Cache.mk (some { state := some (.bool true) }) 0)
    { state := some (.bool true) } { brightness := some (.num 42) } 100 165 rfl
  have h2 := c10_cache_merge_and_expiry (Cache.mk (some { state := some (.bool true) }) 0)
    { state := some (.bool true) } { brightness := some (.num 42) } 100 164 rfl
  refine ⟨?_, ?_, ?_⟩
  · rw [h.1]
    rfl
  · exact h.2.2.1 (by decide)
  · rw [h2.2.2.2 (by decide)]
    rfl

end TuyaWeb
